import Mathlib

/-!
Shallow embedding of `src/covid19sim/epidemiology/_refactored_symptom_helpers.py`
(the disease-state transition engine of COVI-AgentSim).

Modelling conventions:
* Python enumerations become Lean inductives; the `.name` attribute becomes an
  explicit `name : _ → String` function and `getattr(Cls, tok.upper(), None)`
  becomes a `fromName` lookup over the member list.
* Python `frozenset` becomes `Finset`; Python `set` of transition rules becomes
  a duplicate-free list (`setAdd` inserts only if the element is not already
  present, mirroring `set.add` under the dataclass-generated `__eq__`, which
  compares every field).  Python set/frozenset iteration order is
  implementation-defined; where the source iterates a set we fix a canonical
  order (severity-major enumeration order for symptoms, insertion order for
  rule sets), which no settled claim depends on.
* `defaultdict(set)` becomes an association list `List (HealthState × List TransitionRule)`;
  `d[k]` (which inserts an empty entry on a missing key) is `dget`, and
  `d[k].add(r)` is `dAddAux`.
* Python floats (probability scores) become `Rat`.
* Python callables stored in `proba_fn` are compared by object identity by the
  dataclass `__eq__`; we model a function object as an opaque identifier
  (`ProbaFnRef := Nat`) together with an environment `applyFn` giving each
  identifier its behaviour on `(rule, **kwargs)`; the keyword context is an
  arbitrary type `Ctx`.
* `raise`/failed `assert` becomes `Except`: `ValueError`s carry their message
  string, registration-time failures use the `RegError` tag type and
  sampling-time failures the `SampleError` tag type.
* `np.random` only ever appears as the final `rng.choice(candidates, p=probas)`
  call; the embedding of sampling returns the `(candidates, probas)` pair that
  the source hands to that external draw.
-/

set_option maxRecDepth 4096

deriving instance DecidableEq for Except

/-- Severity enumeration (IntEnum, declaration order UNDEFINED..EXTREMELY_SEVERE). -/
inductive Severity
  | UNDEFINED
  | MILD
  | MODERATE
  | HEAVY
  | SEVERE
  | EXTREMELY_SEVERE
deriving DecidableEq, Repr, Fintype

/-- Member list of `Severity` in declaration order (Python enum iteration order). -/
def Severity.all : List Severity :=
  [.UNDEFINED, .MILD, .MODERATE, .HEAVY, .SEVERE, .EXTREMELY_SEVERE]

/-- Member name of a `Severity` value (`severity.name` in the source). -/
def Severity.name : Severity → String
  | .UNDEFINED => ("UNDEFINED")
  | .MILD => ("MILD")
  | .MODERATE => ("MODERATE")
  | .HEAVY => ("HEAVY")
  | .SEVERE => ("SEVERE")
  | .EXTREMELY_SEVERE => ("EXTREMELY_SEVERE")

/-- Base symptom enumeration. -/
inductive BaseSymptom
  | NO_SYMPTOMS
  | FEVER
  | CHILLS
  | GASTRO
  | DIARRHEA
  | NAUSEA_VOMITTING
  | FATIGUE
  | UNUSUAL
  | HARD_TIME_WAKING_UP
  | HEADACHE
  | CONFUSED
  | LOST_CONSCIOUSNESS
  | TROUBLE_BREATHING
  | SNEEZING
  | COUGH
  | RUNNY_NOSE
  | SORE_THROAT
  | CHEST_PAIN
  | LOSS_OF_TASTE
  | ACHES
deriving DecidableEq, Repr, Fintype

/-- Member list of `BaseSymptom` in declaration order. -/
def BaseSymptom.all : List BaseSymptom :=
  [.NO_SYMPTOMS, .FEVER, .CHILLS, .GASTRO, .DIARRHEA, .NAUSEA_VOMITTING,
   .FATIGUE, .UNUSUAL, .HARD_TIME_WAKING_UP, .HEADACHE, .CONFUSED,
   .LOST_CONSCIOUSNESS, .TROUBLE_BREATHING, .SNEEZING, .COUGH, .RUNNY_NOSE,
   .SORE_THROAT, .CHEST_PAIN, .LOSS_OF_TASTE, .ACHES]

/-- Member name of a `BaseSymptom` value. -/
def BaseSymptom.name : BaseSymptom → String
  | .NO_SYMPTOMS => ("NO_SYMPTOMS")
  | .FEVER => ("FEVER")
  | .CHILLS => ("CHILLS")
  | .GASTRO => ("GASTRO")
  | .DIARRHEA => ("DIARRHEA")
  | .NAUSEA_VOMITTING => ("NAUSEA_VOMITTING")
  | .FATIGUE => ("FATIGUE")
  | .UNUSUAL => ("UNUSUAL")
  | .HARD_TIME_WAKING_UP => ("HARD_TIME_WAKING_UP")
  | .HEADACHE => ("HEADACHE")
  | .CONFUSED => ("CONFUSED")
  | .LOST_CONSCIOUSNESS => ("LOST_CONSCIOUSNESS")
  | .TROUBLE_BREATHING => ("TROUBLE_BREATHING")
  | .SNEEZING => ("SNEEZING")
  | .COUGH => ("COUGH")
  | .RUNNY_NOSE => ("RUNNY_NOSE")
  | .SORE_THROAT => ("SORE_THROAT")
  | .CHEST_PAIN => ("CHEST_PAIN")
  | .LOSS_OF_TASTE => ("LOSS_OF_TASTE")
  | .ACHES => ("ACHES")

/-- Phase enumeration owned by `Disease.COVID`. -/
inductive CovidContext
  | INCUBATION
  | ONSET
  | PLATEAU
  | POST_PLATEAU_1
  | POST_PLATEAU_2
deriving DecidableEq, Repr, Fintype

/-- Phase enumeration owned by `Disease.ALLERGY`. -/
inductive AllergyContext
  | ALLERGY
deriving DecidableEq, Repr, Fintype

/-- Phase enumeration owned by `Disease.COLD`. -/
inductive ColdContext
  | COLD
  | COLD_LAST_DAY
deriving DecidableEq, Repr, Fintype

/-- Phase enumeration owned by `Disease.FLU`. -/
inductive FluContext
  | FLU_FIRST_DAY
  | FLU
  | FLU_LAST_DAY
deriving DecidableEq, Repr, Fintype

/-- Value of the abstract `DiseaseContext` base class: each member belongs to
exactly one of the four concrete context enumerations (its Python class). -/
inductive DiseaseContext
  | covid (c : CovidContext)
  | allergy (c : AllergyContext)
  | cold (c : ColdContext)
  | flu (c : FluContext)
deriving DecidableEq, Repr, Fintype

/-- Member name of a `DiseaseContext` value (`context.name` in the source). -/
def DiseaseContext.name : DiseaseContext → String
  | .covid .INCUBATION => ("INCUBATION")
  | .covid .ONSET => ("ONSET")
  | .covid .PLATEAU => ("PLATEAU")
  | .covid .POST_PLATEAU_1 => ("POST_PLATEAU_1")
  | .covid .POST_PLATEAU_2 => ("POST_PLATEAU_2")
  | .allergy .ALLERGY => ("ALLERGY")
  | .cold .COLD => ("COLD")
  | .cold .COLD_LAST_DAY => ("COLD_LAST_DAY")
  | .flu .FLU_FIRST_DAY => ("FLU_FIRST_DAY")
  | .flu .FLU => ("FLU")
  | .flu .FLU_LAST_DAY => ("FLU_LAST_DAY")

/-- Disease enumeration; each disease's enum value is its context class. -/
inductive Disease
  | COVID
  | ALLERGY
  | COLD
  | FLU
deriving DecidableEq, Repr, Fintype

/-- Member list of `Disease` in declaration order. -/
def Disease.all : List Disease := [.COVID, .ALLERGY, .COLD, .FLU]

/-- Member name of a `Disease` value. -/
def Disease.name : Disease → String
  | .COVID => ("COVID")
  | .ALLERGY => ("ALLERGY")
  | .COLD => ("COLD")
  | .FLU => ("FLU")

/-- Members of the context class owned by a disease (`Disease(...).value`
iterated as an enum class), in declaration order. -/
def Disease.members : Disease → List DiseaseContext
  | .COVID => [.covid .INCUBATION, .covid .ONSET, .covid .PLATEAU,
               .covid .POST_PLATEAU_1, .covid .POST_PLATEAU_2]
  | .ALLERGY => [.allergy .ALLERGY]
  | .COLD => [.cold .COLD, .cold .COLD_LAST_DAY]
  | .FLU => [.flu .FLU_FIRST_DAY, .flu .FLU, .flu .FLU_LAST_DAY]

/-- Uppercase a string (Python `str.upper`, restricted to the ASCII names used
by the source; written over the character list so it evaluates in the kernel). -/
def strUpper (s : String) : String := String.mk (s.data.map Char.toUpper)

/-- Lookup of a `Severity` member by name after uppercasing, mirroring
`getattr(Severity, severity.upper(), None)`. -/
def Severity.fromName (s : String) : Option Severity :=
  Severity.all.find? (fun v => v.name == strUpper s)

/-- Lookup of a `BaseSymptom` member by name after uppercasing. -/
def BaseSymptom.fromName (s : String) : Option BaseSymptom :=
  BaseSymptom.all.find? (fun v => v.name == strUpper s)

/-- Lookup of a `Disease` member by name after uppercasing. -/
def Disease.fromName (s : String) : Option Disease :=
  Disease.all.find? (fun v => v.name == strUpper s)

/-- Lookup of a context member by name inside the context class owned by `d`,
mirroring `getattr(Disease(disease_).value, context.upper(), None)`. -/
def DiseaseContext.fromNameIn (d : Disease) (s : String) : Option DiseaseContext :=
  (Disease.members d).find? (fun c => c.name == strUpper s)

/-- Splitter worker over character lists: cuts the input at every occurrence of
the (non-empty) separator, scanning left to right.  `fuel` bounds the
recursion so the definition is structural and kernel-evaluable; every call
site passes enough fuel for the whole input. -/
def splitOnCharsAux (sep : List Char) : Nat → List Char → List Char → List (List Char)
  | 0, l, cur => [cur.reverse ++ l]
  | fuel + 1, l, cur =>
    if sep ≠ [] ∧ sep.isPrefixOf l then
      cur.reverse :: splitOnCharsAux sep fuel (l.drop sep.length) []
    else
      match l with
      | [] => [cur.reverse]
      | c :: rest => splitOnCharsAux sep fuel rest (c :: cur)

/-- String splitting on a non-empty separator, mirroring Python `str.split(sep)`
(all occurrences, empty pieces kept). -/
def strSplitOn (s sep : String) : List String :=
  (splitOnCharsAux sep.data (s.data.length + 1) s.data []).map (fun l => String.mk l)

/-- Symptom value: an immutable (severity, base symptom) pair; the dataclass is
value-hashed and value-compared. -/
structure Symptoms where
  severity : Severity
  base_symptom : BaseSymptom
deriving DecidableEq, Repr

/-- Enumeration of all possible symptoms, `product(Severity, BaseSymptom)` in
severity-major order. -/
def Symptoms.get_all_possible_symptoms : List Symptoms :=
  Severity.all.flatMap (fun severity =>
    BaseSymptom.all.map (fun base_symptom => ⟨severity, base_symptom⟩))

/-- String form of a symptom: `"<SEVERITY> <BASE_SYMPTOM>"`. -/
def Symptoms.str (s : Symptoms) : String :=
  s.severity.name ++ (" ") ++ s.base_symptom.name

/-- Construction of a symptom from string tokens (`Symptoms.make`); unknown
tokens raise `ValueError`. -/
def Symptoms.make (severity base_symptom : String) : Except String Symptoms :=
  match Severity.fromName severity with
  | none => .error (severity ++ (" is not a valid Severity."))
  | some severity_ =>
    match BaseSymptom.fromName base_symptom with
    | none => .error (base_symptom ++ (" is not a valid BaseSymptom."))
    | some base_symptom_ => .ok ⟨severity_, base_symptom_⟩

/-- Disease-phase value: a (disease, context) pair.  The Python class can only
be instantiated through `__init__`, which asserts `is_valid`; construction is
modelled by `DiseasePhase.init` below. -/
structure DiseasePhase where
  disease : Disease
  context : DiseaseContext
deriving DecidableEq, Repr, Fintype

/-- Validity test of a disease phase: the context is a member of the context
class owned by the disease (`self.context in self.disease.value`). -/
def DiseasePhase.is_valid (dp : DiseasePhase) : Bool :=
  decide (dp.context ∈ Disease.members dp.disease)

/-- Constructor of `DiseasePhase` (`__init__`): stores the fields and asserts
`is_valid`, so an invalid pairing fails with `AssertionError` at construction
time. -/
def DiseasePhase.init (disease : Disease) (context : DiseaseContext) :
    Except String DiseasePhase :=
  let dp : DiseasePhase := ⟨disease, context⟩
  if dp.is_valid then .ok dp
  else .error (("Context ") ++ context.name ++ (" is not valid for disease ") ++ disease.name ++ ("."))

/-- Enumeration of every (disease, context) pair with the context drawn from
the disease's own context class. -/
def DiseasePhase.get_all_possible_disease_phases : List DiseasePhase :=
  Disease.all.flatMap (fun disease =>
    (Disease.members disease).map (fun context => ⟨disease, context⟩))

/-- String form of a disease phase: `"<DISEASE> (<CONTEXT>)"`. -/
def DiseasePhase.str (dp : DiseasePhase) : String :=
  dp.disease.name ++ (" (") ++ dp.context.name ++ (")")

/-- Construction of a disease phase from string tokens (`DiseasePhase.make`):
disease by name, then context by name inside that disease's context class,
then the asserting constructor. -/
def DiseasePhase.make (disease context : String) : Except String DiseasePhase :=
  match Disease.fromName disease with
  | none => .error (disease ++ (" is not a valid Disease."))
  | some disease_ =>
    match DiseaseContext.fromNameIn disease_ context with
    | none => .error (context ++ (" is not a valid context for disease ") ++ disease)
    | some context_ => DiseasePhase.init disease_ context_

/-- Health state: a frozenset of symptom values together with a disease phase;
value-compared and value-hashed. -/
structure HealthState where
  symptoms : Finset Symptoms
  disease_phase : DiseasePhase
deriving DecidableEq

/-- Constructor of `HealthState` from an iterable of symptoms (`__init__`
freezes the iterable into a frozenset). -/
def HealthState.ofList (symptoms : List Symptoms) (disease_phase : DiseasePhase) :
    HealthState :=
  ⟨symptoms.toFinset, disease_phase⟩

/-- Canonical iteration order of the symptom frozenset (Python set iteration
order is implementation-defined; the severity-major enumeration order is fixed
here). -/
def HealthState.sortedSymptoms (hs : HealthState) : List Symptoms :=
  Symptoms.get_all_possible_symptoms.filter (fun s => decide (s ∈ hs.symptoms))

/-- String form of a health state:
`"<severity> <symptom>[, <severity> <symptom>...] at <DISEASE> (<CONTEXT>)"`. -/
def HealthState.str (hs : HealthState) : String :=
  let symptom_description :=
    match hs.sortedSymptoms with
    | [s] => Symptoms.str s
    | l => String.intercalate (", ") (l.map Symptoms.str)
  symptom_description ++ (" at ") ++ hs.disease_phase.str

/-- Python list repetition `l * k` (concatenation of `k` copies). -/
def listMulNat (l : List α) (k : Nat) : List α := (List.replicate k l).flatten

/-- Construction of a health state from token sequences (`HealthState.make`):
a length-1 sequence is broadcast to the other's length (`severity *= max(...)`,
then `base_symptom *= max(...)` against the updated severity list), the two
sequences are zipped into symptoms (silently truncating to the shorter), and
the result is paired with `DiseasePhase.make disease context`. -/
def HealthState.make (severity base_symptom : List String) (disease context : String) :
    Except String HealthState := do
  let severity :=
    if severity.length = 1 then listMulNat severity (max severity.length base_symptom.length)
    else severity
  let base_symptom :=
    if base_symptom.length = 1 then listMulNat base_symptom (max severity.length base_symptom.length)
    else base_symptom
  let symptoms ← (severity.zip base_symptom).mapM
    (fun p => Symptoms.make p.1 p.2)
  let disease_phase ← DiseasePhase.make disease context
  pure (HealthState.ofList symptoms disease_phase)

/-- Parsing of a health-state description (`HealthState.parse`): split on
`" at "` into exactly two pieces, split the symptom piece on `", "`, split each
symptom clause on spaces (one token gets an implicit `"undefined"` severity,
three or more raise `ValueError`), split the disease piece on a space into
exactly two tokens, and delegate to `make`. -/
def HealthState.parse (desc : String) : Except String HealthState :=
  match strSplitOn desc (" at ") with
  | [symptoms_desc, disease_desc] =>
    let all_symptom_desc := strSplitOn symptoms_desc (", ")
    (do
      let parsed_symptom_descs ← all_symptom_desc.mapM (fun symptom_desc =>
        match strSplitOn symptom_desc (" ") with
        | [a, b] => Except.ok (a, b)
        | [a] => Except.ok ((("undefined") : String), a)
        | _ => Except.error (("ValueError")))
      let severity := parsed_symptom_descs.map Prod.fst
      let base_symptom := parsed_symptom_descs.map Prod.snd
      match strSplitOn disease_desc (" ") with
      | [disease, context] => HealthState.make severity base_symptom disease context
      | _ => Except.error (("ValueError: expected 2 values to unpack")))
  | _ => Except.error (("ValueError: expected 2 values to unpack"))

/-- Opaque identifier standing for a Python callable stored in `proba_fn`; the
dataclass `__eq__` compares callables by object identity, which matches
equality of identifiers.  An environment of type
`ProbaFnRef → TransitionRule → Ctx → Rat` gives each identifier its behaviour. -/
abbrev ProbaFnRef := Nat

/-- Transition rule: a directed edge between two health states carrying a
fixed score, a callable, or the default weight.  The generated dataclass
`__eq__` compares all five fields; the hand-written `__hash__` hashes only the
`(from_health_state, to_health_state)` pair (see `TransitionRule.hashKey`). -/
structure TransitionRule where
  from_health_state : HealthState
  to_health_state : HealthState
  proba_score_value : Option Rat
  proba_fn : Option ProbaFnRef
  proba_default : Rat
deriving DecidableEq

/-- Basis of the hand-written `__hash__`: `hash((from, to))`, ignoring the
weight fields. -/
def TransitionRule.hashKey (r : TransitionRule) : HealthState × HealthState :=
  (r.from_health_state, r.to_health_state)

/-- Weight resolution (`get_proba`): the callable if present, else the fixed
score if present, else the default. -/
def TransitionRule.get_proba {Ctx : Type}
    (applyFn : ProbaFnRef → TransitionRule → Ctx → Rat)
    (r : TransitionRule) (ctx : Ctx) : Rat :=
  match r.proba_fn with
  | some f => applyFn f r ctx
  | none =>
    match r.proba_score_value with
    | some v => v
    | none => r.proba_default

namespace TransitionRuleSet

/-- State of a `TransitionRuleSet`: the `defaultdict(set)` mapping a source
health state to the set of its outgoing rules, as an association list in
insertion order with each value a duplicate-free list. -/
abbrev RuleSet := List (HealthState × List TransitionRule)

/-- Python `set.add` under the dataclass `__eq__` (all five fields): inserts
the rule only if no equal rule is already present; an equal rule already in
the set is kept unchanged. -/
def setAdd (s : List TransitionRule) (r : TransitionRule) : List TransitionRule :=
  if r ∈ s then s else s ++ [r]

/-- Worker for `self.rule_set[k].add(r)` on the `defaultdict(set)`: a missing
key gets a fresh entry (appended in insertion order, as a dict does), an
existing key has the rule added to its set. -/
def dAddAux : RuleSet → HealthState → TransitionRule → RuleSet
  | [], k, r => [(k, setAdd [] r)]
  | (k', s) :: rest, k, r =>
    if k' = k then (k', setAdd s r) :: rest
    else (k', s) :: dAddAux rest k r

/-- Registration of a single pre-built rule (`add_rule`): the rule is stored
keyed by its own `from_health_state`. -/
def add_rule (rs : RuleSet) (transition_rule : TransitionRule) : RuleSet :=
  dAddAux rs transition_rule.from_health_state transition_rule

/-- Membership test `k in d` on the mapping (no entry is created). -/
def rsLookup : RuleSet → HealthState → Option (List TransitionRule)
  | [], _ => none
  | (k', s) :: rest, k => if k' = k then some s else rsLookup rest k

/-- Read access `d[k]` on the `defaultdict(set)`: returns the stored set and
the possibly-extended mapping (a missing key inserts an empty entry). -/
def dget : RuleSet → HealthState → List TransitionRule × RuleSet
  | [], k => ([], [(k, [])])
  | (k', s) :: rest, k =>
    if k' = k then (s, (k', s) :: rest)
    else
      let p := dget rest k
      (p.1, (k', s) :: p.2)

/-- Outgoing rules registered for a key (absent key reads as none registered). -/
def outgoing (rs : RuleSet) (k : HealthState) : List TransitionRule :=
  (rsLookup rs k).getD []

/-- Argument forms accepted where a `Symptoms` (or wildcard, or iterable) is
expected. -/
inductive SymptomsArg
  | ALL_SYMPTOMS
  | single (s : Symptoms)
  | many (l : List Symptoms)
deriving DecidableEq

/-- Argument forms accepted where a `DiseasePhase` (or wildcard, or iterable)
is expected. -/
inductive DiseasePhaseArg
  | ALL_DISEASE_PHASES
  | single (dp : DiseasePhase)
  | many (l : List DiseasePhase)
deriving DecidableEq

/-- Argument forms accepted where a `HealthState` (or iterable) is expected
(`_validate_health_state` has no wildcard branch: passing the
`ALL_HEALTH_STATES` wildcard is a `TypeError`). -/
inductive HealthStateArg
  | single (h : HealthState)
  | many (l : List HealthState)
deriving DecidableEq

/-- Argument forms accepted where a `TransitionRule` (or iterable) is
expected. -/
inductive TransitionRuleArg
  | single (r : TransitionRule)
  | many (l : List TransitionRule)
deriving DecidableEq

/-- Failures raised during registration: failed `assert`s and `TypeError`s.
`TypeErrorNoneNotIterable` is the `TypeError: 'NoneType' object is not
iterable` raised when the source iterates a `None` that was never replaced by
a list (the trailing assert of `_validate_disease_phase(None, allow_none=True)`
and the to-side list build when `to_disease_phase` was left `None`). -/
inductive RegError
  | AssertionErrorMissingFromSpec
  | AssertionErrorMissingToSpec
  | TypeErrorBadDiseasePhase
  | TypeErrorNoneNotIterable
deriving DecidableEq, Repr

/-- Validation of a disease-phase argument (`_validate_disease_phase`): the
wildcard expands to every possible disease phase, an iterable is listed, a
single value is wrapped; a `None` raises a `TypeError` either way — with
`allow_none=False` directly, with `allow_none=True` the assert accepts the
`None` but the function's trailing membership assert then iterates it. -/
def _validate_disease_phase (disease_phase : Option DiseasePhaseArg)
    (allow_none : Bool) : Except RegError (List DiseasePhase) :=
  match disease_phase with
  | some .ALL_DISEASE_PHASES => .ok DiseasePhase.get_all_possible_disease_phases
  | some (.many l) => .ok l
  | some (.single dp) => .ok [dp]
  | none =>
    if allow_none then .error .TypeErrorNoneNotIterable
    else .error .TypeErrorBadDiseasePhase

/-- Validation of a symptoms argument (`_validate_symptoms`): the wildcard
expands to every possible symptom, an iterable is listed, a single value is
wrapped. -/
def _validate_symptoms : SymptomsArg → List Symptoms
  | .ALL_SYMPTOMS => Symptoms.get_all_possible_symptoms
  | .many l => l
  | .single s => [s]

/-- Validation of a health-state argument (`_validate_health_state`). -/
def _validate_health_state : HealthStateArg → List HealthState
  | .single h => [h]
  | .many l => l

/-- Validation of a transition-rule argument (`_validate_transition_rule`). -/
def _validate_transition_rule : TransitionRuleArg → List TransitionRule
  | .single r => [r]
  | .many l => l

/-- Registration entry point (`add_transition_rule`), following the source's
control flow:
a supplied `transition_rule` takes priority and every other argument is
unused; otherwise `at_disease_phase` is validated whenever either side must be
built, the from side uses `from_disease_phase` when given (else the validated
`at_disease_phase`), and the to side — as written in the source, contradicting
its own comment — validates `at_disease_phase` when `to_disease_phase` is
given and iterates the never-assigned `None` when it is not.  The resulting
rules are the (from-candidates × to-candidates) product, every one added via
`add_rule`. -/
def add_transition_rule (rs : RuleSet)
    (transition_rule : Option TransitionRuleArg)
    (from_health_state : Option HealthStateArg)
    (to_health_state : Option HealthStateArg)
    (from_symptoms : Option SymptomsArg)
    (to_symptoms : Option SymptomsArg)
    (at_disease_phase : Option DiseasePhaseArg)
    (from_disease_phase : Option DiseasePhaseArg)
    (to_disease_phase : Option DiseasePhaseArg)
    (proba_score_value : Option Rat)
    (proba_fn : Option ProbaFnRef) : Except RegError RuleSet := do
  let transition_rule_list ←
    match transition_rule with
    | some arg => pure (_validate_transition_rule arg)
    | none => do
      let atList ←
        if from_health_state.isNone || to_health_state.isNone then
          _validate_disease_phase at_disease_phase true
        else
          pure []
      let from_health_state_list ←
        match from_health_state with
        | some arg => pure (_validate_health_state arg)
        | none => do
          match from_symptoms with
          | none => Except.error RegError.AssertionErrorMissingFromSpec
          | some fs => do
            let from_symptoms_list := _validate_symptoms fs
            let from_disease_phase_list ←
              match from_disease_phase with
              | none =>
                pure atList
              | some fdp => _validate_disease_phase (some fdp) false
            pure (from_disease_phase_list.map
              (fun disease_phase => HealthState.ofList from_symptoms_list disease_phase))
      let to_health_state_list ←
        match to_health_state with
        | some arg => pure (_validate_health_state arg)
        | none => do
          match to_symptoms with
          | none => Except.error RegError.AssertionErrorMissingToSpec
          | some ts => do
            let to_symptoms_list := _validate_symptoms ts
            let to_disease_phase_list ←
              match to_disease_phase with
              | none =>
                Except.error RegError.TypeErrorNoneNotIterable
              | some _ =>
                _validate_disease_phase (some (.many atList)) false
            pure (to_disease_phase_list.map
              (fun disease_phase => HealthState.ofList to_symptoms_list disease_phase))
      pure (from_health_state_list.flatMap (fun f =>
        to_health_state_list.map (fun t =>
          TransitionRule.mk f t proba_score_value proba_fn 0)))
  pure (transition_rule_list.foldl add_rule rs)

/-- Failures raised during sampling: the explicit `ValueError` for an
unregistered state, and the `ValueError` CPython raises when
`zip(*[])` is unpacked into two names (only possible for a key stored with an
empty set, which registration never produces). -/
inductive SampleError
  | NoRuleForState (current_health_state : HealthState)
  | ZipUnpackError
deriving DecidableEq

/-- Sampling (`sample_next_health_state`) up to the external draw: checks
membership of the current state, resolves every outgoing rule's weight,
normalizes by the sum, and returns the `(candidates, probas)` pair handed to
`rng.choice` together with the mapping after the call (the body's only mapping
access, `self.rule_set[current_health_state]`, happens behind the membership
guard).  Weight values are never validated — a zero sum or negative weights
flow into the division and out to the external draw. -/
def sample_next_health_state {Ctx : Type}
    (applyFn : ProbaFnRef → TransitionRule → Ctx → Rat)
    (rs : RuleSet) (current_health_state : HealthState) (ctx : Ctx) :
    Except SampleError (List HealthState × List Rat) × RuleSet :=
  if (rsLookup rs current_health_state).isSome = false then
    (.error (.NoRuleForState current_health_state), rs)
  else
    let rules := (dget rs current_health_state).1
    let rs1 := (dget rs current_health_state).2
    if rules = [] then (.error .ZipUnpackError, rs1)
    else
      let candidate_next_health_states := rules.map (fun r => r.to_health_state)
      let next_state_probas := rules.map (fun r => r.get_proba applyFn ctx)
      let total := next_state_probas.sum
      (.ok (candidate_next_health_states, next_state_probas.map (fun p => p / total)), rs1)

/-- Rule-set states reachable through the public registration surface: the
empty mapping of `__init__` extended by `add_rule` calls (and so by
`add_transition_rule`, which only inserts through `add_rule`). -/
inductive Reachable : RuleSet → Prop
  | empty : Reachable []
  | add (rs : RuleSet) (r : TransitionRule) : Reachable rs → Reachable (add_rule rs r)

/-- Total number of stored rules across all keys. -/
def totalRuleCount (rs : RuleSet) : Nat := (rs.map (fun p => p.2.length)).sum

end TransitionRuleSet

open TransitionRuleSet

/-- Disease phase COVID/ONSET used in the concrete scenarios below. -/
def dpOnset : DiseasePhase := ⟨.COVID, .covid .ONSET⟩

/-- Disease phase COVID/PLATEAU used in the concrete scenarios below. -/
def dpPlateau : DiseasePhase := ⟨.COVID, .covid .PLATEAU⟩

/-- Health state `{MILD FEVER}` at COVID (ONSET). -/
def hsMildFever : HealthState := ⟨{⟨.MILD, .FEVER⟩}, dpOnset⟩

/-- Health state `{MODERATE FEVER}` at COVID (ONSET). -/
def hsModFever : HealthState := ⟨{⟨.MODERATE, .FEVER⟩}, dpOnset⟩

/-- Health state `{SEVERE COUGH}` at COVID (ONSET). -/
def hsSevCough : HealthState := ⟨{⟨.SEVERE, .COUGH⟩}, dpOnset⟩

/-- Rule `hsMildFever → hsModFever` with fixed score 1. -/
def r1ex : TransitionRule := ⟨hsMildFever, hsModFever, some 1, none, 0⟩

/-- Rule with the same endpoints as `r1ex` but fixed score 2. -/
def r2ex : TransitionRule := ⟨hsMildFever, hsModFever, some 2, none, 0⟩

/-- Rule `hsMildFever → hsSevCough` carrying the negative fixed score -1. -/
def rNegB : TransitionRule := ⟨hsMildFever, hsSevCough, some (-1), none, 0⟩

/-- Rule set holding two rules out of `hsMildFever` whose weights are 1 and
-1: they contain a negative value and sum to zero. -/
def rsNeg : RuleSet := add_rule (add_rule [] r1ex) rNegB

/-- Rule set holding exactly one rule, out of `hsMildFever`. -/
def rsOne : RuleSet := add_rule [] r1ex

/-- Trivial environment for `proba_fn` identifiers (no rule below stores a
callable, so its value is never consulted). -/
def applyFn0 : ProbaFnRef → TransitionRule → Unit → Rat := fun _ _ _ => 0

/-- Registration call of claim C2: `from_symptoms = ALL_SYMPTOMS`, a single
`to_health_state` and a single shared `at_disease_phase`. -/
def c2call : Except RegError RuleSet :=
  add_transition_rule [] none none (some (.single hsModFever)) (some .ALL_SYMPTOMS)
    none (some (.single dpOnset)) none none (some 1) none

/-- Zip of two lists only depends on the prefixes up to the shorter length. -/
theorem zip_eq_zip_take_min {α β : Type} (l1 : List α) (l2 : List β) :
    l1.zip l2 = (l1.take (min l1.length l2.length)).zip
      (l2.take (min l1.length l2.length)) := by
  induction l1 generalizing l2 with
  | nil => simp
  | cons a t1 ih =>
    cases l2 with
    | nil => simp
    | cons b t2 =>
      simp only [List.length_cons, Nat.succ_min_succ, List.take_succ_cons,
        List.zip_cons_cons, List.cons.injEq, true_and]
      exact ih t2

namespace TransitionRuleSet

/-- Adding a rule to a set never produces the empty set. -/
theorem setAdd_ne_nil (s : List TransitionRule) (r : TransitionRule) :
    setAdd s r ≠ [] := by
  unfold setAdd
  split
  · exact List.ne_nil_of_mem (by assumption)
  · simp

/-- The added rule is a member of the resulting set. -/
theorem mem_setAdd_self (s : List TransitionRule) (r : TransitionRule) :
    r ∈ setAdd s r := by
  unfold setAdd
  split
  · assumption
  · exact List.mem_append_right _ (List.mem_singleton.mpr rfl)

/-- Adding the same rule twice leaves the set as after one addition. -/
theorem setAdd_setAdd (s : List TransitionRule) (r : TransitionRule) :
    setAdd (setAdd s r) r = setAdd s r := by
  have h := mem_setAdd_self s r
  show (if r ∈ setAdd s r then setAdd s r else setAdd s r ++ [r]) = setAdd s r
  rw [if_pos h]

/-- The `defaultdict` insertion worker is idempotent for a fixed key/rule. -/
theorem dAddAux_idem (rs : RuleSet) (k : HealthState) (r : TransitionRule) :
    dAddAux (dAddAux rs k r) k r = dAddAux rs k r := by
  induction rs with
  | nil => simp [dAddAux, setAdd_setAdd]
  | cons p rest ih =>
    obtain ⟨k', s⟩ := p
    by_cases h : k' = k
    · simp [dAddAux, h, setAdd_setAdd]
    · simp [dAddAux, h, ih]

/-- Registration of an identical rule twice stores it once (`set.add` keeps
the existing equal element). -/
theorem add_rule_idem (rs : RuleSet) (r : TransitionRule) :
    add_rule (add_rule rs r) r = add_rule rs r :=
  dAddAux_idem rs r.from_health_state r

/-- A successful membership lookup returns an entry of the association list. -/
theorem rsLookup_mem {rs : RuleSet} {k : HealthState} {s : List TransitionRule}
    (h : rsLookup rs k = some s) : (k, s) ∈ rs := by
  induction rs with
  | nil => simp [rsLookup] at h
  | cons p rest ih =>
    obtain ⟨k', s'⟩ := p
    by_cases hk : k' = k
    · simp [rsLookup, hk] at h
      subst hk h
      exact List.mem_cons_self _ _
    · simp [rsLookup, hk] at h
      exact List.mem_cons_of_mem _ (ih h)

/-- Values stored by the insertion worker stay non-empty. -/
theorem dAddAux_values_ne_nil {rs : RuleSet} (k : HealthState) (r : TransitionRule)
    (h : ∀ p ∈ rs, p.2 ≠ []) : ∀ p ∈ dAddAux rs k r, p.2 ≠ [] := by
  induction rs with
  | nil =>
    intro p hp
    simp [dAddAux] at hp
    subst hp
    exact setAdd_ne_nil [] r
  | cons q rest ih =>
    obtain ⟨k', s⟩ := q
    intro p hp
    by_cases hk : k' = k
    · simp [dAddAux, hk] at hp
      rcases hp with hp | hp
      · subst hp; exact setAdd_ne_nil s r
      · exact h p (List.mem_cons_of_mem _ hp)
    · simp [dAddAux, hk] at hp
      rcases hp with hp | hp
      · subst hp; exact h (k', s) (List.mem_cons_self _ _)
      · exact ih (fun q hq => h q (List.mem_cons_of_mem _ hq)) p hp

/-- Every key of a rule set reachable through registration holds a non-empty
set of rules: `add_rule` always adds a rule to the entry it touches. -/
theorem reachable_values_ne_nil {rs : RuleSet} (h : Reachable rs) :
    ∀ p ∈ rs, p.2 ≠ [] := by
  induction h with
  | empty => intro p hp; simp at hp
  | add rs r _ ih => exact dAddAux_values_ne_nil r.from_health_state r ih

/-- On a present key, the `defaultdict` read returns the stored set. -/
theorem dget_fst {rs : RuleSet} {k : HealthState} {s : List TransitionRule}
    (h : rsLookup rs k = some s) : (dget rs k).1 = s := by
  induction rs with
  | nil => simp [rsLookup] at h
  | cons p rest ih =>
    obtain ⟨k', s'⟩ := p
    by_cases hk : k' = k
    · simp [rsLookup, hk] at h
      simp [dget, hk, h]
    · simp [rsLookup, hk] at h
      simp [dget, hk, ih h]

/-- On a present key, the `defaultdict` read leaves the mapping unchanged. -/
theorem dget_snd {rs : RuleSet} {k : HealthState}
    (h : (rsLookup rs k).isSome = true) : (dget rs k).2 = rs := by
  induction rs with
  | nil => simp [rsLookup] at h
  | cons p rest ih =>
    obtain ⟨k', s'⟩ := p
    by_cases hk : k' = k
    · simp [dget, hk]
    · simp [rsLookup, hk] at h
      simp [dget, hk, ih h]

end TransitionRuleSet

/-- Claim C1 (code bug): the claim says `parse(str(state)) == state` for every
health state with explicit severities, but `__str__` renders the phase as
`"COVID (ONSET)"` while `parse`/`make` expect the bare context token, so
parsing any `str` output fails with `ValueError` — here evaluated at the
single-symptom state `{MILD FEVER}` at COVID (ONSET); the same description
with the parenthesis-free phase does parse back to the original state. -/
theorem c1_parse_of_str_fails :
    HealthState.str hsMildFever = ("MILD FEVER at COVID (ONSET)")
    ∧ (HealthState.parse (HealthState.str hsMildFever)).isOk = false
    ∧ HealthState.parse (("MILD FEVER at COVID ONSET")) = .ok hsMildFever :=
  ⟨by decide, by decide, by decide⟩

/-- Claim C2, counterexample: registering `from_symptoms = ALL_SYMPTOMS` with a
single `to_health_state` and a single `at_disease_phase` inserts exactly one
rule, not the `|Severity| × |BaseSymptom| = 120` rules the claim states. -/
theorem c2_all_symptoms_counterexample :
    c2call.map totalRuleCount = .ok 1
    ∧ Severity.all.length * BaseSymptom.all.length = 120
    ∧ ¬ (c2call.map totalRuleCount
        = .ok (Severity.all.length * BaseSymptom.all.length)) :=
  ⟨by decide, by decide, by decide⟩

/-- Claim C2 as amended: the `ALL_SYMPTOMS` wildcard is expanded into the full
symptom list and that whole list becomes the symptom set of a single `from`
health state (one per resolved phase — here one), so the registration inserts
exactly one rule, from that 120-symptom health state to the given
`to_health_state`; the rule cross-product ranges over (from-phase candidates ×
to candidates), not over individual symptoms. -/
theorem c2_all_symptoms_registration_amended (rs : RuleSet) (hsTo : HealthState)
    (dp : DiseasePhase) (w : Option Rat) (pfn : Option ProbaFnRef) :
    add_transition_rule rs none none (some (.single hsTo)) (some .ALL_SYMPTOMS)
      none (some (.single dp)) none none w pfn
      = .ok (add_rule rs
          ⟨HealthState.ofList Symptoms.get_all_possible_symptoms dp, hsTo, w, pfn, 0⟩) := rfl

/-- Claim C3, counterexample: two rules with the same `(from, to)` endpoints
but different fixed scores hash alike (`hashKey` equal) yet are not equal
under the dataclass `__eq__`, so inserting both stores both — the key ends up
with two entries, not the single collapsed entry the claim states. -/
theorem c3_same_endpoints_counterexample :
    add_rule (add_rule [] r1ex) r2ex = [(hsMildFever, [r1ex, r2ex])]
    ∧ r1ex ≠ r2ex
    ∧ r1ex.hashKey = r2ex.hashKey :=
  ⟨by decide, by decide, by decide⟩

/-- Claim C3 as amended: entry identity in the stored set is full-field
equality, not `(from, to)` identity — re-adding a fully identical rule leaves
the rule set unchanged (the old entry is kept, nothing is replaced), while two
rules with identical endpoints but different weight-sources are both stored as
distinct entries. -/
theorem c3_rule_identity_amended :
    (∀ (rs : RuleSet) (r : TransitionRule),
        add_rule (add_rule rs r) r = add_rule rs r)
    ∧ (add_rule (add_rule [] r1ex) r2ex).map (fun p => p.2.length) = [2] :=
  ⟨add_rule_idem, by decide⟩

/-- Claim C4 (code bug): with both `to_disease_phase` (PLATEAU) and
`at_disease_phase` (ONSET) supplied, the registered rule's `to` health state
carries ONSET — the source validates `at_disease_phase` where its own comment
says priority goes to `to_disease_phase`; moreover supplying only
`at_disease_phase` for the to side (the claimed fallback) crashes with a
`TypeError` because the `None` `to_disease_phase` is never replaced. -/
theorem c4_to_side_phase_bug :
    add_transition_rule [] none (some (.single hsMildFever)) none none
      (some (.single ⟨.SEVERE, .COUGH⟩)) (some (.single dpOnset)) none
      (some (.single dpPlateau)) (some 1) none
      = .ok [(hsMildFever, [⟨hsMildFever, hsSevCough, some 1, none, 0⟩])]
    ∧ hsSevCough.disease_phase = dpOnset
    ∧ dpOnset ≠ dpPlateau
    ∧ add_transition_rule [] none (some (.single hsMildFever)) none none
        (some (.single ⟨.SEVERE, .COUGH⟩)) (some (.single dpOnset)) none
        none (some 1) none
      = .error .TypeErrorNoneNotIterable :=
  ⟨by decide, by decide, by decide, by decide⟩

/-- Claim C5, counterexample: `HealthState.make` with 2 severity tokens and 3
symptom tokens (lengths disagree, neither is 1) does not fail — it returns the
health state zipped from the first two pairs, silently dropping the third
symptom token. -/
theorem c5_length_mismatch_counterexample :
    HealthState.make [("mild"), ("severe")] [("fever"), ("cough"), ("aches")]
      ("covid") ("onset")
      = .ok ⟨{⟨.MILD, .FEVER⟩, ⟨.SEVERE, .COUGH⟩}, dpOnset⟩ := by decide

/-- Claim C5 as amended: when the two token sequences have different lengths
and neither has length 1, `make` raises no error on account of the mismatch —
it silently truncates, behaving exactly as if both sequences were cut to the
shorter length. -/
theorem c5_make_truncates_amended (severity base_symptom : List String)
    (disease context : String)
    (h1 : severity.length ≠ 1) (h2 : base_symptom.length ≠ 1) :
    HealthState.make severity base_symptom disease context
      = HealthState.make
          (severity.take (min severity.length base_symptom.length))
          (base_symptom.take (min severity.length base_symptom.length))
          disease context := by
  have hmin : min severity.length base_symptom.length = severity.length
      ∨ min severity.length base_symptom.length = base_symptom.length := by
    rcases Nat.le_total severity.length base_symptom.length with h | h
    · exact Or.inl (min_eq_left h)
    · exact Or.inr (min_eq_right h)
  have hne : min severity.length base_symptom.length ≠ 1 := by
    rcases hmin with h | h <;> rw [h] <;> assumption
  have hc3 : ¬ ((severity.take (min severity.length base_symptom.length)).length = 1) := by
    rw [List.length_take, min_eq_left (Nat.min_le_left _ _)]
    exact hne
  have hc4 : ¬ ((base_symptom.take (min severity.length base_symptom.length)).length = 1) := by
    rw [List.length_take, min_eq_left (Nat.min_le_right _ _)]
    exact hne
  unfold HealthState.make
  simp only [eq_false h1, eq_false h2, eq_false hc3, eq_false hc4, if_false]
  rw [zip_eq_zip_take_min severity base_symptom]

/-- Witness for the amended claim C5 at the concrete mismatched input
(2 severities against 3 symptom kinds). -/
theorem c5_make_truncates_amended_witness :
    (([("mild"), ("severe")] : List String).length ≠ 1)
    ∧ (([("fever"), ("cough"), ("aches")] : List String).length ≠ 1)
    ∧ HealthState.make [("mild"), ("severe")] [("fever"), ("cough"), ("aches")]
        ("covid") ("onset")
      = HealthState.make [("mild"), ("severe")] [("fever"), ("cough")]
        ("covid") ("onset") :=
  ⟨by decide, by decide,
    c5_make_truncates_amended [("mild"), ("severe")]
      [("fever"), ("cough"), ("aches")] ("covid") ("onset")
      (by decide) (by decide)⟩

/-- Claim C6, counterexample: from `hsMildFever`, the registered weights are
`[1, -1]` — they contain a negative value and sum to zero — yet sampling does
not fail with any engine-raised error: it returns normally, handing the
normalized vector to the external `rng.choice`. -/
theorem c6_degenerate_weights_counterexample :
    (outgoing rsNeg hsMildFever).map (fun r => r.get_proba applyFn0 ()) = [1, -1]
    ∧ (1 : Rat) + (-1) = 0
    ∧ (-1 : Rat) < 0
    ∧ ((sample_next_health_state applyFn0 rsNeg hsMildFever ()).1).isOk = true :=
  ⟨by decide, by norm_num, by norm_num, by decide⟩

/-- Claim C6 as amended: the engine performs no validation of weights at all —
whenever the current state has at least one outgoing rule, sampling succeeds
for every choice of weights (zero-sum and negative weights included), silently
normalizing by the sum and deferring to the external draw; no
`DegenerateDistribution`-style failure exists in the engine. -/
theorem c6_no_weight_validation_amended {Ctx : Type}
    (applyFn : ProbaFnRef → TransitionRule → Ctx → Rat)
    (rs : RuleSet) (current : HealthState) (ctx : Ctx) (s : List TransitionRule)
    (hs : rsLookup rs current = some s) (hne : s ≠ []) :
    ((sample_next_health_state applyFn rs current ctx).1).isOk = true := by
  unfold sample_next_health_state
  have h1 : (dget rs current).1 = s := dget_fst hs
  simp [hs, h1, hne, Except.isOk, Except.toBool]

/-- Witness for the amended claim C6 at the zero-sum negative-weight rule set
`rsNeg`. -/
theorem c6_no_weight_validation_amended_witness :
    rsLookup rsNeg hsMildFever = some [r1ex, rNegB]
    ∧ ([r1ex, rNegB] : List TransitionRule) ≠ []
    ∧ ((sample_next_health_state applyFn0 rsNeg hsMildFever ()).1).isOk = true :=
  ⟨by decide, by decide,
    c6_no_weight_validation_amended applyFn0 rsNeg hsMildFever () [r1ex, rNegB]
      (by decide) (by decide)⟩

/-- Claim C7: on every rule set built through registration, sampling fails
with the no-rule `ValueError` exactly when the current health state has zero
registered outgoing rules; with at least one outgoing rule that error is never
raised.  (The reachability hypothesis carries the registration invariant that
a present key always holds a non-empty rule set.) -/
theorem c7_no_rule_for_state_iff {Ctx : Type}
    (applyFn : ProbaFnRef → TransitionRule → Ctx → Rat)
    (rs : RuleSet) (current : HealthState) (ctx : Ctx) (hr : Reachable rs) :
    ((sample_next_health_state applyFn rs current ctx).1
        = .error (.NoRuleForState current))
      ↔ outgoing rs current = [] := by
  unfold sample_next_health_state outgoing
  cases h : rsLookup rs current with
  | none => simp [h]
  | some s =>
    have hne : s ≠ [] :=
      reachable_values_ne_nil hr (current, s) (rsLookup_mem h)
    have h1 : (dget rs current).1 = s := dget_fst h
    simp [h, h1, hne]

/-- Witness for claim C7 on the one-rule set `rsOne`: sampling from the
unregistered `hsSevCough` fails with the no-rule error, sampling from the
registered `hsMildFever` does not. -/
theorem c7_no_rule_for_state_iff_witness :
    ((sample_next_health_state applyFn0 rsOne hsSevCough ()).1
        = .error (.NoRuleForState hsSevCough))
    ∧ ¬ ((sample_next_health_state applyFn0 rsOne hsMildFever ()).1
        = .error (.NoRuleForState hsMildFever)) := by
  have hr : Reachable rsOne := Reachable.add [] r1ex Reachable.empty
  constructor
  · exact (c7_no_rule_for_state_iff applyFn0 rsOne hsSevCough () hr).mpr (by decide)
  · intro hcontra
    have h := (c7_no_rule_for_state_iff applyFn0 rsOne hsMildFever () hr).mp hcontra
    exact absurd h (by decide)

/-- Claim C8: constructing a disease phase succeeds exactly when the context
belongs to the owning disease's context class (so a cross-pairing always fails
at construction time), every pair produced by the enumerator constructs
successfully, and every successfully constructed value satisfies the validity
invariant. -/
theorem c8_disease_phase_validity :
    (∀ (d : Disease) (c : DiseaseContext),
        (DiseasePhase.init d c).isOk = true ↔ c ∈ Disease.members d)
    ∧ (DiseasePhase.get_all_possible_disease_phases.all
        (fun dp => (DiseasePhase.init dp.disease dp.context).isOk)) = true
    ∧ (∀ (d : Disease) (c : DiseaseContext) (dp : DiseasePhase),
        DiseasePhase.init d c = .ok dp
          → dp.context ∈ Disease.members dp.disease) := by decide

/-- Witness for claim C8: the constructed COVID/ONSET phase satisfies the
validity invariant. -/
theorem c8_disease_phase_validity_witness :
    dpOnset.context ∈ Disease.members dpOnset.disease :=
  c8_disease_phase_validity.2.2 Disease.COVID (DiseaseContext.covid CovidContext.ONSET)
    dpOnset (by decide)

/-- Claim C9: sampling never mutates the rule-set mapping — for every rule
set, current state and context, the mapping after the call equals the mapping
before it (the body's `defaultdict` access sits behind the membership guard,
so not even an empty entry is inserted); the stored rules are values of that
unchanged mapping, so they are unchanged too. -/
theorem c9_sampling_mutates_nothing {Ctx : Type}
    (applyFn : ProbaFnRef → TransitionRule → Ctx → Rat)
    (rs : RuleSet) (current : HealthState) (ctx : Ctx) :
    (sample_next_health_state applyFn rs current ctx).2 = rs := by
  unfold sample_next_health_state
  cases h : rsLookup rs current with
  | none => simp [h]
  | some s =>
    have hsome : (rsLookup rs current).isSome = true := by simp [h]
    by_cases h2 : (dget rs current).1 = [] <;>
      simp [h, h2, dget_snd hsome]

/-- Claim C10: when a pre-built rule (or list of rules) is supplied, every
other argument of `add_transition_rule` is ignored — the result is exactly the
supplied rules, unchanged, inserted one by one through `add_rule` (which keys
each rule by its own `from_health_state`). -/
theorem c10_prebuilt_rule_priority (rs : RuleSet) (r : TransitionRule)
    (l : List TransitionRule)
    (fhs ths : Option HealthStateArg) (fs ts : Option SymptomsArg)
    (adp fdp tdp : Option DiseasePhaseArg)
    (psv : Option Rat) (pfn : Option ProbaFnRef) :
    (add_transition_rule rs (some (.single r)) fhs ths fs ts adp fdp tdp psv pfn
        = .ok (add_rule rs r))
    ∧ (add_transition_rule rs (some (.many l)) fhs ths fs ts adp fdp tdp psv pfn
        = .ok (l.foldl add_rule rs)) :=
  ⟨rfl, rfl⟩
